import Mathlib

/-!
Verification of the guardian recovery registry contract
(src/contracts/recovery_registry/src/main.rs).

The contract is a per-account guardian registry on a string-addressed
key/value store.  We embed it shallowly:

* `PublicKey` is an opaque comparable value; we model it as `Nat`.
* `AccountHash` wraps the 32 raw bytes of an account hash.  Its canonical
  textual form (the `Display` instance used by the `format!` calls in the key
  helpers) is the base16 lowercase encoding of those bytes, which we model
  with `hexEncode`.  Well-formed hashes (`WFAccount`) have exactly 32 bytes,
  each below 256.
* The contract stores three typed values per account under string names.
  We merge the named-key table and the URef store into one association list
  `Storage` from names to `StoredValue`; `get_or_create_uref` materialises a
  missing name with the unit value (`storage::new_uref(())`), and a typed
  read of a slot holding a value of a different type fails deserialisation,
  which the code turns into `None` (`.ok().flatten()` and
  `.unwrap_or_default()`).
* `runtime::revert` aborts the call and the host discards all of its writes
  (atomic all-or-nothing commit).  `init_guardians_raw` returns, on error,
  the storage as it stood at the moment of the revert, so that we can prove
  the revert never had anything to discard; `init_guardians` is the
  caller-visible result and `applyInit` is the committed post-state.
* The contract is compiled for wasm32 (enforced by a compile_error), where
  `usize` is 32 bits, so `guardians.len() as u32` in the threshold check is
  lossless and the length compares as a plain natural number.

The crate `guardian_types` (constants and the error enum) is part of this
repository but not under src/; `MIN_GUARDIANS`, the three storage-key
prefixes and the error variant names are modelled from the spec.
-/

/-- Guardian public keys: opaque, comparable, serialisable; modelled as `Nat`. -/
abbrev PublicKey := Nat

/-- The 32 raw bytes of a casper `AccountHash` (each byte a `Nat` below 256;
well-formedness is tracked by `WFAccount`). -/
structure AccountHash where
  bytes : List Nat
deriving DecidableEq

/-- A well-formed account hash: exactly 32 bytes, each below 256. -/
def WFAccount (a : AccountHash) : Prop :=
  a.bytes.length = 32 ∧ ∀ b ∈ a.bytes, b < 256

instance : DecidablePred WFAccount := fun a => by
  unfold WFAccount; infer_instance

/-- Modelled from the spec: the error enum `GuardianError` lives in the
`guardian_types` crate, which is not under src/; the four variants are the
ones named by the spec and used by the contract.  `AlreadyInit` models the
variant the spec calls AlreadyInitialized. -/
inductive GuardianError where
  | InvalidGuardianSetup
  | InvalidThreshold
  | AlreadyInit
  | AccountNotFound
deriving DecidableEq

/-- Modelled from the spec: `MIN_GUARDIANS` comes from `guardian_types`
(not under src/); the spec fixes its value at 2. -/
def MIN_GUARDIANS : Nat := 2

/-- Modelled from the spec: the guardians-list storage-key text, called
`GUARDIANS_PREFIX` by the spec; its concrete text is not under src/, only
that the three field markers are fixed and distinct. -/
def GUARDIANS_PFX : String := "guardians_"

/-- Modelled from the spec: the threshold storage-key text, called
`THRESHOLD_PREFIX` by the spec. -/
def THRESHOLD_PFX : String := "threshold_"

/-- Modelled from the spec: the flag storage-key text, called
`INITIALIZED_PREFIX` by the spec. -/
def INIT_PFX : String := "initialized_"

/-- One base16 lowercase digit: 0-9 then a-f. -/
def hexDigit (n : Nat) : Char :=
  if n < 10 then Char.ofNat (48 + n) else Char.ofNat (87 + n)

/-- Base16 lowercase encoding of one byte, high digit first. -/
def byteHex (b : Nat) : List Char :=
  [hexDigit (b / 16), hexDigit (b % 16)]

/-- Base16 lowercase encoding of a byte list. -/
def hexEncode : List Nat → List Char
  | [] => []
  | b :: bs => byteHex b ++ hexEncode bs

/-- Canonical textual form of an account hash: the base16 lowercase encoding
of its bytes (the `Display` form interpolated by `format!`). -/
def accountHashStr (a : AccountHash) : String :=
  String.mk (hexEncode a.bytes)

/-- Storage name of the guardians list of an account
(`guardians_key` in the source). -/
def guardians_key (a : AccountHash) : String :=
  GUARDIANS_PFX ++ accountHashStr a

/-- Storage name of the threshold of an account (`threshold_key`). -/
def threshold_key (a : AccountHash) : String :=
  THRESHOLD_PFX ++ accountHashStr a

/-- Storage name of the one-time setup flag of an account
(`initialized_key` in the source). -/
def init_key (a : AccountHash) : String :=
  INIT_PFX ++ accountHashStr a

/-- The three logical fields of a guardian record. -/
inductive FieldTag where
  | guardiansF
  | thresholdF
  | initF
deriving DecidableEq

/-- The fixed key text of each field. -/
def field_pfx : FieldTag → String
  | .guardiansF => GUARDIANS_PFX
  | .thresholdF => THRESHOLD_PFX
  | .initF => INIT_PFX

/-- The storage-location naming scheme: fixed field text concatenated with
the canonical textual form of the account (spec section 4.1 `locate`).
`locate .guardiansF` is definitionally `guardians_key`, and so on. -/
def locate (f : FieldTag) (a : AccountHash) : String :=
  field_pfx f ++ accountHashStr a

/-- A value sitting in one storage slot.  `unitV` is the `()` written by
`storage::new_uref(())` when a slot is first materialised; a typed read of a
slot holding a value of another shape fails deserialisation. -/
inductive StoredValue where
  | unitV
  | guardiansV (gs : List PublicKey)
  | thresholdV (t : Nat)
  | boolV (b : Bool)
deriving DecidableEq

/-- Deserialise a stored value as a guardian list. -/
def asGuardians : StoredValue → Option (List PublicKey)
  | .guardiansV gs => some gs
  | _ => none

/-- Deserialise a stored value as a threshold. -/
def asThreshold : StoredValue → Option Nat
  | .thresholdV t => some t
  | _ => none

/-- Deserialise a stored value as a boolean. -/
def asBool : StoredValue → Option Bool
  | .boolV b => some b
  | _ => none

/-- The persistent store: named keys merged with their URef values, as an
association list from storage names to stored values. -/
abbrev Storage := List (String × StoredValue)

/-- Look a name up in storage. -/
def lookupKey : Storage → String → Option StoredValue
  | [], _ => none
  | (k1, v) :: rest, k => if k1 = k then some v else lookupKey rest k

/-- Write a value under a name: replace the existing slot, or append a new
one.  Models `storage::write` through the URef registered for the name. -/
def writeKey : Storage → String → StoredValue → Storage
  | [], k, v => [(k, v)]
  | (k1, v1) :: rest, k, v =>
      if k1 = k then (k1, v) :: rest else (k1, v1) :: writeKey rest k v

/-- `get_or_create_uref`: return the slot registered under the name, or
materialise a fresh slot holding `()` and register it. -/
def get_or_create (s : Storage) (k : String) : Storage :=
  match lookupKey s k with
  | some _ => s
  | none => writeKey s k .unitV

/-- `read_from_storage`: `None` when no key is registered under the name,
and `None` when the stored value does not deserialise at the expected type
(`storage::read(uref).ok().flatten()`). -/
def read_from_storage (dec : StoredValue → Option α) (s : Storage) (k : String) :
    Option α :=
  match lookupKey s k with
  | some v => dec v
  | none => none

/-- The duplicate scan of `initialize_guardians`: walk the list keeping the
guardians already seen, and report a duplicate as soon as the current
guardian equals one of them. -/
def dup_scan (seen : List PublicKey) : List PublicKey → Bool
  | [] => false
  | g :: rest =>
      if seen.any (fun x => x == g) then true else dup_scan (seen ++ [g]) rest

/-- The entry point `initialize_guardians`, with the storage at the moment
of a `runtime::revert` kept in the error so that the absence of partial
writes is provable.  Checks in source order: guardian-count floor, threshold
bounds, duplicate scan, then the one-time flag; on success writes the list,
the threshold and the flag. -/
def init_guardians_raw (s : Storage) (a : AccountHash) (gs : List PublicKey)
    (t : Nat) : Except (GuardianError × Storage) Storage :=
  if gs.length < MIN_GUARDIANS then
    .error (.InvalidGuardianSetup, s)
  else if t = 0 ∨ t > gs.length then
    .error (.InvalidThreshold, s)
  else if dup_scan [] gs then
    .error (.InvalidGuardianSetup, s)
  else
    let s1 := get_or_create s (init_key a)
    if ((lookupKey s1 (init_key a)).bind asBool).getD false then
      .error (.AlreadyInit, s1)
    else
      let s2 := writeKey (get_or_create s1 (guardians_key a)) (guardians_key a)
        (.guardiansV gs)
      let s3 := writeKey (get_or_create s2 (threshold_key a)) (threshold_key a)
        (.thresholdV t)
      .ok (writeKey s3 (init_key a) (.boolV true))

/-- The caller-visible outcome of `initialize_guardians`: the committed
storage on success, the revert code on failure. -/
def init_guardians (s : Storage) (a : AccountHash) (gs : List PublicKey)
    (t : Nat) : Except GuardianError Storage :=
  match init_guardians_raw s a gs t with
  | .ok s1 => .ok s1
  | .error (e, _) => .error e

/-- The storage after a call to `initialize_guardians` has been processed by
the host: the new storage when the call succeeds, the unchanged storage when
it reverts (all-or-nothing commit). -/
def applyInit (s : Storage) (a : AccountHash) (gs : List PublicKey) (t : Nat) :
    Storage :=
  match init_guardians s a gs t with
  | .ok s1 => s1
  | .error _ => s

/-- The observable outcome of a call to `initialize_guardians`: `none` on
success, the revert code on failure. -/
def initOutcome (s : Storage) (a : AccountHash) (gs : List PublicKey)
    (t : Nat) : Option GuardianError :=
  match init_guardians s a gs t with
  | .ok _ => none
  | .error e => some e

/-- The entry point `get_guardians`: the stored list, or an
`AccountNotFound` revert when the slot is absent or does not deserialise. -/
def get_guardians (s : Storage) (a : AccountHash) :
    Except GuardianError (List PublicKey) :=
  match read_from_storage asGuardians s (guardians_key a) with
  | some gs => .ok gs
  | none => .error .AccountNotFound

/-- The entry point `get_threshold`. -/
def get_threshold (s : Storage) (a : AccountHash) : Except GuardianError Nat :=
  match read_from_storage asThreshold s (threshold_key a) with
  | some t => .ok t
  | none => .error .AccountNotFound

/-- The entry point `is_guardian`: membership of the key in the stored
list, `false` when no list is stored. -/
def is_guardian (s : Storage) (a : AccountHash) (pk : PublicKey) : Bool :=
  match read_from_storage asGuardians s (guardians_key a) with
  | some l => l.any (fun g => g == pk)
  | none => false

/-- The entry point `has_guardians`: the stored flag, `false` when absent or
not deserialisable. -/
def has_guardians (s : Storage) (a : AccountHash) : Bool :=
  (read_from_storage asBool s (init_key a)).getD false

deriving instance DecidableEq for Except

/-! ## Storage map lemmas -/

/-- Looking up after a write: the written name has the new value, every
other name is untouched. -/
theorem lookup_writeKey (s : Storage) (k k2 : String) (v : StoredValue) :
    lookupKey (writeKey s k v) k2 = if k2 = k then some v else lookupKey s k2 := by
  induction s with
  | nil =>
    simp only [writeKey, lookupKey]
    by_cases h : k = k2
    · subst h; simp
    · simp [h, Ne.symm h, lookupKey]
  | cons hd tl ih =>
    obtain ⟨k1, v1⟩ := hd
    simp only [writeKey]
    by_cases h1 : k1 = k
    · subst h1
      simp only [if_pos rfl, lookupKey]
      by_cases h2 : k1 = k2
      · subst h2; simp
      · simp [h2, Ne.symm h2]
    · simp only [if_neg h1, lookupKey]
      by_cases h2 : k1 = k2
      · subst h2
        simp [h1, lookupKey]
      · simp [h2, ih]

/-- Looking up after `get_or_create`: the materialised name holds its old
value or the fresh unit value; every other name is untouched. -/
theorem lookup_goc (s : Storage) (k k2 : String) :
    lookupKey (get_or_create s k) k2 =
      if k2 = k then some ((lookupKey s k).getD .unitV) else lookupKey s k2 := by
  unfold get_or_create
  cases h : lookupKey s k with
  | some v =>
    by_cases h2 : k2 = k
    · subst h2; simp [h]
    · simp [h2]
  | none =>
    rw [lookup_writeKey]
    by_cases h2 : k2 = k
    · subst h2; simp [h]
    · simp [h2]

/-! ## Injectivity of the storage-location names -/

/-- `hexDigit` is injective on digit values. -/
theorem hexDigit_inj : ∀ m < 16, ∀ n < 16, hexDigit m = hexDigit n → m = n := by
  decide

/-- `byteHex` is injective on byte values. -/
theorem byteHex_inj {b1 b2 : Nat} (h1 : b1 < 256) (h2 : b2 < 256)
    (h : byteHex b1 = byteHex b2) : b1 = b2 := by
  simp only [byteHex, List.cons.injEq, and_true] at h
  have d1 : b1 / 16 < 16 := Nat.div_lt_of_lt_mul (by omega)
  have d2 : b2 / 16 < 16 := Nat.div_lt_of_lt_mul (by omega)
  have m1 : b1 % 16 < 16 := Nat.mod_lt _ (by omega)
  have m2 : b2 % 16 < 16 := Nat.mod_lt _ (by omega)
  have hq := hexDigit_inj _ d1 _ d2 h.1
  have hr := hexDigit_inj _ m1 _ m2 h.2
  have e1 := Nat.div_add_mod b1 16
  have e2 := Nat.div_add_mod b2 16
  omega

/-- Hex encoding doubles the length. -/
theorem hexEncode_length (l : List Nat) : (hexEncode l).length = 2 * l.length := by
  induction l with
  | nil => rfl
  | cons b bs ih => simp [hexEncode, byteHex, ih]; omega

/-- Hex encoding is injective on equal-length byte lists. -/
theorem hexEncode_inj : ∀ l1 l2 : List Nat, (∀ b ∈ l1, b < 256) →
    (∀ b ∈ l2, b < 256) → l1.length = l2.length →
    hexEncode l1 = hexEncode l2 → l1 = l2
  | [], [], _, _, _, _ => rfl
  | [], _ :: _, _, _, hlen, _ => by simp at hlen
  | _ :: _, [], _, _, hlen, _ => by simp at hlen
  | b1 :: r1, b2 :: r2, w1, w2, hlen, h => by
    simp only [hexEncode] at h
    have hb := List.append_inj h (by simp [byteHex])
    have hb1 : b1 < 256 := w1 b1 (by simp)
    have hb2 : b2 < 256 := w2 b2 (by simp)
    have : b1 = b2 := byteHex_inj hb1 hb2 hb.1
    have hrest : r1 = r2 :=
      hexEncode_inj r1 r2 (fun b hb => w1 b (by simp [hb]))
        (fun b hb => w2 b (by simp [hb])) (by simpa using hlen) hb.2
    rw [this, hrest]

/-- Two strings with the same character data are equal. -/
theorem string_data_ext {s t : String} (h : s.data = t.data) : s = t := by
  cases s; cases t; exact congrArg String.mk h

/-- The canonical textual form is injective on well-formed account hashes. -/
theorem accountHashStr_inj {a1 a2 : AccountHash} (w1 : WFAccount a1)
    (w2 : WFAccount a2) (h : accountHashStr a1 = accountHashStr a2) : a1 = a2 := by
  have hd : hexEncode a1.bytes = hexEncode a2.bytes := congrArg String.data h
  have : a1.bytes = a2.bytes :=
    hexEncode_inj _ _ w1.2 w2.2 (by rw [w1.1, w2.1]) hd
  cases a1; cases a2; simpa using this

/-- Splitting a storage name: because the textual form of a well-formed
account has fixed length, equal names force equal field texts and equal
accounts — for any two field texts whatsoever. -/
theorem key_app_inj (p1 p2 : String) {a1 a2 : AccountHash}
    (w1 : WFAccount a1) (w2 : WFAccount a2)
    (h : p1 ++ accountHashStr a1 = p2 ++ accountHashStr a2) : p1 = p2 ∧ a1 = a2 := by
  have hd : p1.data ++ (accountHashStr a1).data
      = p2.data ++ (accountHashStr a2).data := by
    rw [← String.data_append, ← String.data_append, h]
  have hlen : (accountHashStr a1).data.length = (accountHashStr a2).data.length := by
    show (hexEncode a1.bytes).length = (hexEncode a2.bytes).length
    rw [hexEncode_length, hexEncode_length, w1.1, w2.1]
  obtain ⟨hp, hs⟩ := List.append_inj' hd hlen
  refine ⟨string_data_ext hp, ?_⟩
  exact accountHashStr_inj w1 w2 (string_data_ext hs)

/-- String append cancels on the right. -/
theorem string_append_right_cancel {p1 p2 s : String} (h : p1 ++ s = p2 ++ s) :
    p1 = p2 := by
  have hd : p1.data ++ s.data = p2.data ++ s.data := by
    rw [← String.data_append, ← String.data_append, h]
  exact string_data_ext (List.append_cancel_right hd)

/-- Storage names of well-formed distinct accounts never collide, whatever
the two field texts are. -/
theorem key_ne_of_account_ne (p1 p2 : String) {a1 a2 : AccountHash}
    (w1 : WFAccount a1) (w2 : WFAccount a2) (hne : a1 ≠ a2) :
    p1 ++ accountHashStr a1 ≠ p2 ++ accountHashStr a2 :=
  fun h => hne (key_app_inj p1 p2 w1 w2 h).2

/-- The guardians name and the flag name of one account differ. -/
theorem guardians_key_ne_init_key (a : AccountHash) :
    guardians_key a ≠ init_key a := fun h =>
  absurd (string_append_right_cancel h) (by decide)

/-- The threshold name and the flag name of one account differ. -/
theorem threshold_key_ne_init_key (a : AccountHash) :
    threshold_key a ≠ init_key a := fun h =>
  absurd (string_append_right_cancel h) (by decide)

/-- The guardians name and the threshold name of one account differ. -/
theorem guardians_key_ne_threshold_key (a : AccountHash) :
    guardians_key a ≠ threshold_key a := fun h =>
  absurd (string_append_right_cancel h) (by decide)

/-! ## Characterisation of the duplicate scan and of the entry points -/

/-- The duplicate scan returns `false` exactly when the seen list extended
with the remaining guardians has no duplicates. -/
theorem dup_scan_eq_false_iff (l : List PublicKey) :
    ∀ seen : List PublicKey, seen.Nodup →
      (dup_scan seen l = false ↔ (seen ++ l).Nodup) := by
  induction l with
  | nil => intro seen h; simp [dup_scan, h]
  | cons g rest ih =>
    intro seen h
    by_cases hg : g ∈ seen
    · have hany : seen.any (fun x => x == g) = true := by
        simp only [List.any_eq_true, beq_iff_eq]
        exact ⟨g, hg, rfl⟩
      simp only [dup_scan, hany, if_true]
      constructor
      · intro hfalse; cases hfalse
      · intro hnd
        exfalso
        rw [List.nodup_append] at hnd
        exact hnd.2.2 hg (by simp)
    · have hany : seen.any (fun x => x == g) = false := by
        simp only [List.any_eq_false, beq_iff_eq]
        intro x hx he; exact hg (he ▸ hx)
      simp only [dup_scan, hany, Bool.false_eq_true, if_false]
      have hseen : (seen ++ [g]).Nodup := by
        rw [List.nodup_append]
        exact ⟨h, List.nodup_singleton g, by
          intro x hx hxg
          simp at hxg
          exact hg (hxg ▸ hx)⟩
      rw [ih (seen ++ [g]) hseen, List.append_assoc]
      simp

/-- The duplicate scan of `initialize_guardians` accepts exactly the
duplicate-free lists. -/
theorem dup_scan_false_iff_nodup (gs : List PublicKey) :
    dup_scan [] gs = false ↔ gs.Nodup := by
  simpa using dup_scan_eq_false_iff gs [] List.nodup_nil

/-- The flag read performed inside `initialize_guardians` (after
materialising the flag slot) computes exactly `has_guardians`. -/
theorem flag_read_eq (s : Storage) (a : AccountHash) :
    ((lookupKey (get_or_create s (init_key a)) (init_key a)).bind asBool).getD false
      = has_guardians s a := by
  rw [lookup_goc]
  simp only [if_pos rfl]
  unfold has_guardians read_from_storage
  cases h : lookupKey s (init_key a) with
  | some v => cases v <;> simp [h, asBool]
  | none => simp [h, asBool]

/-- `get_or_create_uref` leaves the storage alone when the name exists. -/
theorem goc_of_present {s : Storage} {k : String} {v : StoredValue}
    (h : lookupKey s k = some v) : get_or_create s k = s := by
  unfold get_or_create; rw [h]

/-- A set flag means the flag slot holds the boolean `true`. -/
theorem has_guardians_true_lookup {s : Storage} {a : AccountHash}
    (h : has_guardians s a = true) : lookupKey s (init_key a) = some (.boolV true) := by
  unfold has_guardians read_from_storage at h
  cases hl : lookupKey s (init_key a) with
  | none => rw [hl] at h; simp at h
  | some v =>
    rw [hl] at h
    cases v <;> simp [asBool] at h
    simp [h]

/-- Slot contents after a successful `initialize_guardians`: the three slots
of the account hold the committed record, every other slot is untouched. -/
theorem raw_ok_lookup {s : Storage} {a : AccountHash} {gs : List PublicKey}
    {t : Nat} {s1 : Storage} (h : init_guardians_raw s a gs t = .ok s1)
    (k : String) :
    lookupKey s1 k =
      if k = init_key a then some (.boolV true)
      else if k = threshold_key a then some (.thresholdV t)
      else if k = guardians_key a then some (.guardiansV gs)
      else lookupKey s k := by
  simp only [init_guardians_raw] at h
  split at h
  · cases h
  split at h
  · cases h
  split at h
  · cases h
  split at h
  · cases h
  injection h with h1
  subst h1
  simp only [lookup_writeKey, lookup_goc]
  by_cases h1 : k = init_key a
  · simp [h1]
  · by_cases h2 : k = threshold_key a
    · simp [h1, h2, threshold_key_ne_init_key a]
    · by_cases h3 : k = guardians_key a
      · simp [h1, h2, h3, guardians_key_ne_init_key a,
          guardians_key_ne_threshold_key a]
      · simp [h1, h2, h3]

/-- A successful `initialize_guardians` presupposes that every validation
passed. -/
theorem raw_ok_facts {s : Storage} {a : AccountHash} {gs : List PublicKey}
    {t : Nat} {s1 : Storage} (h : init_guardians_raw s a gs t = .ok s1) :
    MIN_GUARDIANS ≤ gs.length ∧ t ≠ 0 ∧ t ≤ gs.length ∧ gs.Nodup ∧
      has_guardians s a = false := by
  simp only [init_guardians_raw] at h
  split at h
  · cases h
  split at h
  · cases h
  split at h
  · cases h
  split at h
  · cases h
  rename_i hlen hthr hdup hflag
  rw [flag_read_eq] at hflag
  refine ⟨by omega, ?_, ?_, ?_, ?_⟩
  · intro h0; exact hthr (Or.inl h0)
  · by_contra hgt; exact hthr (Or.inr (by omega))
  · exact (dup_scan_false_iff_nodup gs).mp (by simpa using hdup)
  · simpa using hflag

/-- When every validation passes, `initialize_guardians` succeeds. -/
theorem raw_ok_of {s : Storage} {a : AccountHash} {gs : List PublicKey} {t : Nat}
    (hlen : MIN_GUARDIANS ≤ gs.length) (ht0 : t ≠ 0) (htl : t ≤ gs.length)
    (hnd : gs.Nodup) (hflag : has_guardians s a = false) :
    (init_guardians_raw s a gs t).isOk = true := by
  simp only [init_guardians_raw]
  rw [if_neg (by omega)]
  rw [if_neg (by omega)]
  rw [if_neg (by simp [(dup_scan_false_iff_nodup gs).mpr hnd])]
  rw [if_neg (by simp [flag_read_eq, hflag])]
  rfl

/-- Too few guardians revert with `InvalidGuardianSetup` and write nothing. -/
theorem raw_len_err {s : Storage} {a : AccountHash} {gs : List PublicKey}
    {t : Nat} (h : gs.length < MIN_GUARDIANS) :
    init_guardians_raw s a gs t = .error (.InvalidGuardianSetup, s) := by
  simp only [init_guardians_raw, if_pos h]

/-- An out-of-bounds threshold reverts with `InvalidThreshold` and writes
nothing (reached only past the guardian-count check). -/
theorem raw_thr_err {s : Storage} {a : AccountHash} {gs : List PublicKey}
    {t : Nat} (hlen : ¬gs.length < MIN_GUARDIANS) (h : t = 0 ∨ t > gs.length) :
    init_guardians_raw s a gs t = .error (.InvalidThreshold, s) := by
  simp only [init_guardians_raw, if_neg hlen, if_pos h]

/-- A duplicate guardian reverts with `InvalidGuardianSetup` and writes
nothing. -/
theorem raw_dup_err {s : Storage} {a : AccountHash} {gs : List PublicKey}
    {t : Nat} (hlen : ¬gs.length < MIN_GUARDIANS) (hthr : ¬(t = 0 ∨ t > gs.length))
    (hdup : dup_scan [] gs = true) :
    init_guardians_raw s a gs t = .error (.InvalidGuardianSetup, s) := by
  simp only [init_guardians_raw, if_neg hlen, if_neg hthr, hdup, if_true]

/-- A set flag reverts with `AlreadyInit`; the flag slot already existed, so
even the slot materialisation changed nothing. -/
theorem raw_flag_err {s : Storage} {a : AccountHash} {gs : List PublicKey}
    {t : Nat} (hlen : ¬gs.length < MIN_GUARDIANS) (hthr : ¬(t = 0 ∨ t > gs.length))
    (hdup : dup_scan [] gs = false) (hflag : has_guardians s a = true) :
    init_guardians_raw s a gs t = .error (.AlreadyInit, s) := by
  have hl := has_guardians_true_lookup hflag
  simp only [init_guardians_raw, if_neg hlen, if_neg hthr, hdup,
    Bool.false_eq_true, if_false]
  rw [goc_of_present hl]
  simp [hl, asBool]

/-- The caller-visible call succeeds exactly when the raw run does. -/
theorem init_eq_ok_iff {s : Storage} {a : AccountHash} {gs : List PublicKey}
    {t : Nat} {s1 : Storage} :
    init_guardians s a gs t = .ok s1 ↔ init_guardians_raw s a gs t = .ok s1 := by
  unfold init_guardians
  cases h : init_guardians_raw s a gs t with
  | ok s2 => simp
  | error es => obtain ⟨e, s2⟩ := es; simp

/-- The caller-visible call fails exactly when the raw run does, with the
same code. -/
theorem init_eq_err_iff {s : Storage} {a : AccountHash} {gs : List PublicKey}
    {t : Nat} {e : GuardianError} :
    init_guardians s a gs t = .error e ↔
      ∃ s2, init_guardians_raw s a gs t = .error (e, s2) := by
  unfold init_guardians
  cases h : init_guardians_raw s a gs t with
  | ok s2 => simp
  | error es => obtain ⟨e2, s2⟩ := es; simp [eq_comm]

/-- A reverted call commits nothing. -/
theorem applyInit_of_err {s : Storage} {a : AccountHash} {gs : List PublicKey}
    {t : Nat} {e : GuardianError} (h : init_guardians s a gs t = .error e) :
    applyInit s a gs t = s := by
  unfold applyInit; rw [h]

/-- A successful call commits its writes. -/
theorem applyInit_of_ok {s : Storage} {a : AccountHash} {gs : List PublicKey}
    {t : Nat} {s1 : Storage} (h : init_guardians s a gs t = .ok s1) :
    applyInit s a gs t = s1 := by
  unfold applyInit; rw [h]

/-! ## Claim theorems -/

theorem init_isOk_false_of_flag {s : Storage} {a : AccountHash}
    {gs : List PublicKey} {t : Nat} (hflag : has_guardians s a = true) :
    (init_guardians s a gs t).isOk = false := by
  cases hi : init_guardians s a gs t with
  | error e => rfl
  | ok s1 =>
    have := (raw_ok_facts (init_eq_ok_iff.mp hi)).2.2.2.2
    rw [hflag] at this
    cases this

/-- C3: with fewer than two guardians, `initialize_guardians` fails with
`InvalidGuardianSetup` whatever the threshold is — the guardian-count check
runs before the threshold check.  (The bound 2 is `MIN_GUARDIANS`, modelled
from the spec.) -/
theorem guardian_count_checked_first (s : Storage) (a : AccountHash)
    (gs : List PublicKey) (t : Nat) (h : gs.length < 2) :
    init_guardians s a gs t = .error .InvalidGuardianSetup := by
  rw [init_eq_err_iff]
  exact ⟨s, raw_len_err (by simpa [MIN_GUARDIANS] using h)⟩

theorem guardian_count_checked_first_witness :
    init_guardians [] ⟨[0]⟩ [9] 0 = .error .InvalidGuardianSetup :=
  guardian_count_checked_first [] ⟨[0]⟩ [9] 0 (by decide)

/-- C2: on an account whose flag is not set, with at least two pairwise
distinct guardians, `initialize_guardians` succeeds exactly when
`1 ≤ t ≤ N`, and fails with `InvalidThreshold` when `t` is zero or
exceeds `N`. -/
theorem threshold_bounds_iff (s : Storage) (a : AccountHash)
    (gs : List PublicKey) (t : Nat) (hlen : 2 ≤ gs.length) (hnd : gs.Nodup)
    (hflag : has_guardians s a = false) :
    ((init_guardians s a gs t).isOk = true ↔ 1 ≤ t ∧ t ≤ gs.length) ∧
    (t = 0 ∨ gs.length < t →
      init_guardians s a gs t = .error .InvalidThreshold) := by
  constructor
  · constructor
    · intro hok
      cases hi : init_guardians s a gs t with
      | error e => rw [hi] at hok; cases hok
      | ok s1 =>
        have hf := raw_ok_facts (init_eq_ok_iff.mp hi)
        omega
    · rintro ⟨h1, h2⟩
      have hraw := raw_ok_of (by simpa [MIN_GUARDIANS] using hlen)
        (by omega) h2 hnd hflag
      unfold init_guardians
      cases hr : init_guardians_raw s a gs t with
      | ok s1 => rfl
      | error es => rw [hr] at hraw; cases hraw
  · intro h
    rw [init_eq_err_iff]
    exact ⟨s, raw_thr_err (by simp [MIN_GUARDIANS]; omega) (by omega)⟩

theorem threshold_bounds_iff_witness :
    ((init_guardians [] ⟨[0]⟩ [4, 5] 2).isOk = true ↔ 1 ≤ 2 ∧ 2 ≤ [4, 5].length) ∧
    (2 = 0 ∨ [4, 5].length < 2 →
      init_guardians [] ⟨[0]⟩ [4, 5] 2 = .error .InvalidThreshold) :=
  threshold_bounds_iff [] ⟨[0]⟩ [4, 5] 2 (by decide) (by decide) (by decide)

/-- C4: a guardian list of valid length and threshold containing a repeated
key fails with `InvalidGuardianSetup` (the scan reports the first repeat met
left to right; the revert code is the same wherever the repeat sits). -/
theorem duplicate_guardians_rejected (s : Storage) (a : AccountHash)
    (gs : List PublicKey) (t : Nat) (hlen : 2 ≤ gs.length) (ht0 : 1 ≤ t)
    (htl : t ≤ gs.length) (hdup : ¬gs.Nodup) :
    init_guardians s a gs t = .error .InvalidGuardianSetup := by
  rw [init_eq_err_iff]
  refine ⟨s, raw_dup_err (by simp [MIN_GUARDIANS]; omega) (by omega) ?_⟩
  cases hd : dup_scan [] gs
  · exact absurd ((dup_scan_false_iff_nodup gs).mp hd) hdup
  · rfl

theorem duplicate_guardians_rejected_witness :
    init_guardians [] ⟨[0]⟩ [1, 2, 1] 2 = .error .InvalidGuardianSetup :=
  duplicate_guardians_rejected [] ⟨[0]⟩ [1, 2, 1] 2 (by decide) (by decide)
    (by decide) (by decide)

/-- C5: on an account none of whose three slots exists, `has_guardians` and
`is_guardian` answer `false` (they never fault: they are total functions),
while `get_guardians` and `get_threshold` fail with `AccountNotFound`. -/
theorem uninit_account_queries (s : Storage) (a : AccountHash) (pk : PublicKey)
    (hg : lookupKey s (guardians_key a) = none)
    (ht : lookupKey s (threshold_key a) = none)
    (hi : lookupKey s (init_key a) = none) :
    has_guardians s a = false ∧ is_guardian s a pk = false ∧
      get_guardians s a = .error .AccountNotFound ∧
      get_threshold s a = .error .AccountNotFound := by
  unfold has_guardians is_guardian get_guardians get_threshold read_from_storage
  rw [hg, ht, hi]
  simp

theorem uninit_account_queries_witness :
    has_guardians [] ⟨[0]⟩ = false ∧ is_guardian [] ⟨[0]⟩ 3 = false ∧
      get_guardians [] ⟨[0]⟩ = .error .AccountNotFound ∧
      get_threshold [] ⟨[0]⟩ = .error .AccountNotFound :=
  uninit_account_queries [] ⟨[0]⟩ 3 (by decide) (by decide) (by decide)

/-- What every query answers on the committed state of a successful
`initialize_guardians`. -/
theorem queries_after_commit {s s1 : Storage} {a : AccountHash}
    {gs : List PublicKey} {t : Nat} (pk : PublicKey)
    (h : init_guardians s a gs t = .ok s1) :
    get_guardians s1 a = .ok gs ∧ get_threshold s1 a = .ok t ∧
      has_guardians s1 a = true ∧ (is_guardian s1 a pk = true ↔ pk ∈ gs) := by
  have hl := raw_ok_lookup (init_eq_ok_iff.mp h)
  have hgk := hl (guardians_key a)
  rw [if_neg (guardians_key_ne_init_key a),
    if_neg (guardians_key_ne_threshold_key a), if_pos rfl] at hgk
  have htk := hl (threshold_key a)
  rw [if_neg (threshold_key_ne_init_key a), if_pos rfl] at htk
  have hik := hl (init_key a)
  rw [if_pos rfl] at hik
  unfold get_guardians get_threshold has_guardians is_guardian read_from_storage
  rw [hgk, htk, hik]
  simp [asGuardians, asThreshold, asBool, List.any_eq_true]

/-- C6: after a successful `initialize_guardians(A, G, T)`: `get_guardians`
returns exactly `G` in order, `get_threshold` returns `T`, `has_guardians`
is `true`, and `is_guardian(A, K)` is `true` exactly when `K` occurs in
`G`. -/
theorem membership_after_init (s s1 : Storage) (a : AccountHash)
    (gs : List PublicKey) (t : Nat) (pk : PublicKey)
    (h : init_guardians s a gs t = .ok s1) :
    get_guardians s1 a = .ok gs ∧ get_threshold s1 a = .ok t ∧
      has_guardians s1 a = true ∧ (is_guardian s1 a pk = true ↔ pk ∈ gs) :=
  queries_after_commit pk h

theorem membership_after_init_witness :
    get_guardians (applyInit [] ⟨[0]⟩ [5, 7, 9] 2) ⟨[0]⟩ = .ok [5, 7, 9] ∧
    get_threshold (applyInit [] ⟨[0]⟩ [5, 7, 9] 2) ⟨[0]⟩ = .ok 2 ∧
    has_guardians (applyInit [] ⟨[0]⟩ [5, 7, 9] 2) ⟨[0]⟩ = true ∧
    (is_guardian (applyInit [] ⟨[0]⟩ [5, 7, 9] 2) ⟨[0]⟩ 7 = true ↔ 7 ∈ [5, 7, 9]) :=
  membership_after_init [] (applyInit [] ⟨[0]⟩ [5, 7, 9] 2) ⟨[0]⟩ [5, 7, 9] 2 7
    (by decide)

/-- C1 as stated is false: a later call whose arguments flunk a stateless
validation fails with that validation code, not with `AlreadyInit`.
Concretely, after a successful setup of the account, a second call with the
single-element list `[30]` fails with `InvalidGuardianSetup`. -/
theorem init_lockout_cex :
    (init_guardians [] ⟨[0]⟩ [10, 20] 1).isOk = true ∧
    init_guardians (applyInit [] ⟨[0]⟩ [10, 20] 1) ⟨[0]⟩ [30] 1
      = .error .InvalidGuardianSetup ∧
    GuardianError.InvalidGuardianSetup ≠ .AlreadyInit := by decide

/-- C1 (amended): after one successful `initialize_guardians(A, G, T)`,
no later call for `A` ever succeeds — such a call fails with the code of
the first validation its arguments flunk (`InvalidGuardianSetup` below two
guardians, `InvalidThreshold` for an out-of-bounds threshold,
`InvalidGuardianSetup` for a repeated guardian) and with `AlreadyInit` when
its arguments pass all three — the committed state is unchanged by any such
call, the stored `G` and `T` keep being returned, and the flag stays
`true`.  The four branches cover every possible argument pair. -/
theorem init_lockout_after_success (s s1 : Storage) (a : AccountHash)
    (gs gs2 : List PublicKey) (t t2 : Nat)
    (h : init_guardians s a gs t = .ok s1) :
    (init_guardians s1 a gs2 t2).isOk = false ∧
    (gs2.length < 2 →
      init_guardians s1 a gs2 t2 = .error .InvalidGuardianSetup) ∧
    (2 ≤ gs2.length → t2 = 0 ∨ gs2.length < t2 →
      init_guardians s1 a gs2 t2 = .error .InvalidThreshold) ∧
    (2 ≤ gs2.length → 1 ≤ t2 → t2 ≤ gs2.length → ¬gs2.Nodup →
      init_guardians s1 a gs2 t2 = .error .InvalidGuardianSetup) ∧
    (2 ≤ gs2.length → 1 ≤ t2 → t2 ≤ gs2.length → gs2.Nodup →
      init_guardians s1 a gs2 t2 = .error .AlreadyInit) ∧
    applyInit s1 a gs2 t2 = s1 ∧
    get_guardians s1 a = .ok gs ∧ get_threshold s1 a = .ok t ∧
    has_guardians s1 a = true := by
  obtain ⟨hgq, htq, hfq, hig⟩ := queries_after_commit 0 h
  refine ⟨init_isOk_false_of_flag hfq, ?_, ?_, ?_, ?_, ?_, hgq, htq, hfq⟩
  · intro h1
    rw [init_eq_err_iff]
    exact ⟨s1, raw_len_err (by simpa [MIN_GUARDIANS] using h1)⟩
  · intro h1 h2
    rw [init_eq_err_iff]
    exact ⟨s1, raw_thr_err (by simp [MIN_GUARDIANS]; omega) (by omega)⟩
  · intro h1 h2 h3 h4
    rw [init_eq_err_iff]
    refine ⟨s1, raw_dup_err (by simp [MIN_GUARDIANS]; omega) (by omega) ?_⟩
    cases hd : dup_scan [] gs2
    · exact absurd ((dup_scan_false_iff_nodup gs2).mp hd) h4
    · rfl
  · intro h1 h2 h3 h4
    rw [init_eq_err_iff]
    refine ⟨s1, raw_flag_err (by simp [MIN_GUARDIANS]; omega) (by omega)
      ((dup_scan_false_iff_nodup gs2).mpr h4) hfq⟩
  · have := @init_isOk_false_of_flag s1 a gs2 t2 hfq
    cases hi : init_guardians s1 a gs2 t2 with
    | error e => exact applyInit_of_err hi
    | ok s2 => rw [hi] at this; cases this

theorem init_lockout_after_success_witness :
    (init_guardians (applyInit [] ⟨[0]⟩ [10, 20] 1) ⟨[0]⟩ [7, 8] 2).isOk = false ∧
    ([7, 8].length < 2 →
      init_guardians (applyInit [] ⟨[0]⟩ [10, 20] 1) ⟨[0]⟩ [7, 8] 2
        = .error .InvalidGuardianSetup) ∧
    (2 ≤ [7, 8].length → 2 = 0 ∨ [7, 8].length < 2 →
      init_guardians (applyInit [] ⟨[0]⟩ [10, 20] 1) ⟨[0]⟩ [7, 8] 2
        = .error .InvalidThreshold) ∧
    (2 ≤ [7, 8].length → 1 ≤ 2 → 2 ≤ [7, 8].length → ¬[7, 8].Nodup →
      init_guardians (applyInit [] ⟨[0]⟩ [10, 20] 1) ⟨[0]⟩ [7, 8] 2
        = .error .InvalidGuardianSetup) ∧
    (2 ≤ [7, 8].length → 1 ≤ 2 → 2 ≤ [7, 8].length → [7, 8].Nodup →
      init_guardians (applyInit [] ⟨[0]⟩ [10, 20] 1) ⟨[0]⟩ [7, 8] 2
        = .error .AlreadyInit) ∧
    applyInit (applyInit [] ⟨[0]⟩ [10, 20] 1) ⟨[0]⟩ [7, 8] 2
      = applyInit [] ⟨[0]⟩ [10, 20] 1 ∧
    get_guardians (applyInit [] ⟨[0]⟩ [10, 20] 1) ⟨[0]⟩ = .ok [10, 20] ∧
    get_threshold (applyInit [] ⟨[0]⟩ [10, 20] 1) ⟨[0]⟩ = .ok 1 ∧
    has_guardians (applyInit [] ⟨[0]⟩ [10, 20] 1) ⟨[0]⟩ = true :=
  init_lockout_after_success [] (applyInit [] ⟨[0]⟩ [10, 20] 1) ⟨[0]⟩
    [10, 20] [7, 8] 1 2 (by decide)

/-- C8: whenever `initialize_guardians` reverts — with any of its three
codes — the storage standing at the moment of the revert is the storage the
call started from (there was no partial write for the atomic rollback to
discard), and the committed post-state equals the pre-state. -/
theorem failed_init_writes_nothing (s : Storage) (a : AccountHash)
    (gs : List PublicKey) (t : Nat) (e : GuardianError) (s1 : Storage)
    (h : init_guardians_raw s a gs t = .error (e, s1)) :
    s1 = s ∧ init_guardians s a gs t = .error e ∧ applyInit s a gs t = s := by
  have herr : init_guardians s a gs t = .error e := by
    unfold init_guardians; rw [h]
  refine ⟨?_, herr, applyInit_of_err herr⟩
  simp only [init_guardians_raw] at h
  split at h
  · simp only [Except.error.injEq, Prod.mk.injEq] at h; exact h.2.symm
  split at h
  · simp only [Except.error.injEq, Prod.mk.injEq] at h; exact h.2.symm
  split at h
  · simp only [Except.error.injEq, Prod.mk.injEq] at h; exact h.2.symm
  split at h
  · rename_i hflag
    simp only [Except.error.injEq, Prod.mk.injEq] at h
    rw [flag_read_eq] at hflag
    rw [← h.2, goc_of_present (has_guardians_true_lookup hflag)]
  · cases h

theorem failed_init_writes_nothing_witness :
    ([] : Storage) = [] ∧
    init_guardians [] ⟨[0]⟩ [4, 4] 1 = .error .InvalidGuardianSetup ∧
    applyInit [] ⟨[0]⟩ [4, 4] 1 = [] :=
  failed_init_writes_nothing [] ⟨[0]⟩ [4, 4] 1 .InvalidGuardianSetup []
    (by decide)

/-- C10: a slot whose stored value does not deserialise at the expected type
is treated exactly like an absent slot: the read helper yields `None`, so
the getters fail with `AccountNotFound` and the two boolean queries answer
`false`; all queries are total functions, so none can trap on malformed
data. -/
theorem malformed_slot_treated_absent (s : Storage) (a : AccountHash)
    (pk : PublicKey) (v w u : StoredValue)
    (hg : lookupKey s (guardians_key a) = some v) (hgv : asGuardians v = none)
    (ht : lookupKey s (threshold_key a) = some w) (htv : asThreshold w = none)
    (hi : lookupKey s (init_key a) = some u) (hiv : asBool u = none) :
    read_from_storage asGuardians s (guardians_key a) = none ∧
    read_from_storage asThreshold s (threshold_key a) = none ∧
    read_from_storage asBool s (init_key a) = none ∧
    get_guardians s a = .error .AccountNotFound ∧
    get_threshold s a = .error .AccountNotFound ∧
    is_guardian s a pk = false ∧
    has_guardians s a = false := by
  unfold get_guardians get_threshold is_guardian has_guardians read_from_storage
  rw [hg, ht, hi]
  simp [hgv, htv, hiv]

theorem malformed_slot_treated_absent_witness :
    read_from_storage asGuardians
      [(guardians_key ⟨[0]⟩, .boolV true), (threshold_key ⟨[0]⟩, .unitV),
        (init_key ⟨[0]⟩, .guardiansV [1])] (guardians_key ⟨[0]⟩) = none ∧
    read_from_storage asThreshold
      [(guardians_key ⟨[0]⟩, .boolV true), (threshold_key ⟨[0]⟩, .unitV),
        (init_key ⟨[0]⟩, .guardiansV [1])] (threshold_key ⟨[0]⟩) = none ∧
    read_from_storage asBool
      [(guardians_key ⟨[0]⟩, .boolV true), (threshold_key ⟨[0]⟩, .unitV),
        (init_key ⟨[0]⟩, .guardiansV [1])] (init_key ⟨[0]⟩) = none ∧
    get_guardians
      [(guardians_key ⟨[0]⟩, .boolV true), (threshold_key ⟨[0]⟩, .unitV),
        (init_key ⟨[0]⟩, .guardiansV [1])] ⟨[0]⟩ = .error .AccountNotFound ∧
    get_threshold
      [(guardians_key ⟨[0]⟩, .boolV true), (threshold_key ⟨[0]⟩, .unitV),
        (init_key ⟨[0]⟩, .guardiansV [1])] ⟨[0]⟩ = .error .AccountNotFound ∧
    is_guardian
      [(guardians_key ⟨[0]⟩, .boolV true), (threshold_key ⟨[0]⟩, .unitV),
        (init_key ⟨[0]⟩, .guardiansV [1])] ⟨[0]⟩ 1 = false ∧
    has_guardians
      [(guardians_key ⟨[0]⟩, .boolV true), (threshold_key ⟨[0]⟩, .unitV),
        (init_key ⟨[0]⟩, .guardiansV [1])] ⟨[0]⟩ = false :=
  malformed_slot_treated_absent _ ⟨[0]⟩ 1 (.boolV true) .unitV (.guardiansV [1])
    (by decide) (by decide) (by decide) (by decide) (by decide) (by decide)

/-- C7: the storage-location naming scheme is a pure function of the field
and the account, and on well-formed account hashes it is injective: two
pairs name the same location exactly when both the field and the account
coincide. -/
theorem locate_pure_injective (f1 f2 : FieldTag) (a1 a2 : AccountHash)
    (w1 : WFAccount a1) (w2 : WFAccount a2) :
    locate f1 a1 = locate f2 a2 ↔ f1 = f2 ∧ a1 = a2 := by
  constructor
  · intro h
    obtain ⟨hp, ha⟩ := key_app_inj _ _ w1 w2 h
    refine ⟨?_, ha⟩
    cases f1 <;> cases f2 <;> revert hp <;> decide
  · rintro ⟨rfl, rfl⟩; rfl

theorem locate_pure_injective_witness :
    (locate .guardiansF ⟨List.replicate 32 0⟩
        = locate .thresholdF ⟨List.replicate 31 0 ++ [1]⟩) ↔
      (FieldTag.guardiansF = FieldTag.thresholdF ∧
        (⟨List.replicate 32 0⟩ : AccountHash) = ⟨List.replicate 31 0 ++ [1]⟩) :=
  locate_pure_injective .guardiansF .thresholdF ⟨List.replicate 32 0⟩
    ⟨List.replicate 31 0 ++ [1]⟩ (by decide) (by decide)

theorem accountKey_ne {a1 a2 : AccountHash} (w1 : WFAccount a1)
    (w2 : WFAccount a2) (hne : a1 ≠ a2) {k1 k2 : String}
    (h1 : k1 = guardians_key a1 ∨ k1 = threshold_key a1 ∨ k1 = init_key a1)
    (h2 : k2 = guardians_key a2 ∨ k2 = threshold_key a2 ∨ k2 = init_key a2) :
    k1 ≠ k2 := by
  rcases h1 with rfl | rfl | rfl <;> rcases h2 with rfl | rfl | rfl <;>
    exact key_ne_of_account_ne _ _ w1 w2 hne

theorem lookup_applyInit_ne {s : Storage} {a : AccountHash}
    {gs : List PublicKey} {t : Nat} {k : String} (h1 : k ≠ guardians_key a)
    (h2 : k ≠ threshold_key a) (h3 : k ≠ init_key a) :
    lookupKey (applyInit s a gs t) k = lookupKey s k := by
  cases hi : init_guardians s a gs t with
  | error e => rw [applyInit_of_err hi]
  | ok s1 =>
    rw [applyInit_of_ok hi,
      raw_ok_lookup (init_eq_ok_iff.mp hi) k, if_neg h3, if_neg h2, if_neg h1]

theorem get_guardians_congr {s1 s2 : Storage} {a : AccountHash}
    (h : lookupKey s1 (guardians_key a) = lookupKey s2 (guardians_key a)) :
    get_guardians s1 a = get_guardians s2 a := by
  unfold get_guardians read_from_storage; rw [h]

theorem get_threshold_congr {s1 s2 : Storage} {a : AccountHash}
    (h : lookupKey s1 (threshold_key a) = lookupKey s2 (threshold_key a)) :
    get_threshold s1 a = get_threshold s2 a := by
  unfold get_threshold read_from_storage; rw [h]

theorem is_guardian_congr {s1 s2 : Storage} {a : AccountHash} {pk : PublicKey}
    (h : lookupKey s1 (guardians_key a) = lookupKey s2 (guardians_key a)) :
    is_guardian s1 a pk = is_guardian s2 a pk := by
  unfold is_guardian read_from_storage; rw [h]

theorem has_guardians_congr {s1 s2 : Storage} {a : AccountHash}
    (h : lookupKey s1 (init_key a) = lookupKey s2 (init_key a)) :
    has_guardians s1 a = has_guardians s2 a := by
  unfold has_guardians read_from_storage; rw [h]

theorem initOutcome_congr {s1 s2 : Storage} {a : AccountHash}
    {gs : List PublicKey} {t : Nat}
    (h : has_guardians s1 a = has_guardians s2 a) :
    initOutcome s1 a gs t = initOutcome s2 a gs t := by
  simp only [initOutcome, init_guardians, init_guardians_raw]
  rw [flag_read_eq, flag_read_eq, h]
  split_ifs <;> rfl

/-- C9: operations invoked on account `B` neither change nor consult the
record of a distinct well-formed account `A`: every slot of `A` survives a
committed `initialize_guardians` on `B` unchanged (so every query about `A`
answers as before), and overwriting any slot of `A` changes neither the
outcome of `initialize_guardians` on `B` nor any query about `B` (the
queries are read-only by construction: they return no storage). -/
theorem cross_account_isolation (s : Storage) (aA aB : AccountHash)
    (wA : WFAccount aA) (wB : WFAccount aB) (hne : aA ≠ aB)
    (gs : List PublicKey) (t : Nat) (pk : PublicKey) (kA : String)
    (v : StoredValue)
    (hkA : kA = guardians_key aA ∨ kA = threshold_key aA ∨ kA = init_key aA) :
    lookupKey (applyInit s aB gs t) (guardians_key aA)
        = lookupKey s (guardians_key aA) ∧
    lookupKey (applyInit s aB gs t) (threshold_key aA)
        = lookupKey s (threshold_key aA) ∧
    lookupKey (applyInit s aB gs t) (init_key aA)
        = lookupKey s (init_key aA) ∧
    get_guardians (applyInit s aB gs t) aA = get_guardians s aA ∧
    get_threshold (applyInit s aB gs t) aA = get_threshold s aA ∧
    is_guardian (applyInit s aB gs t) aA pk = is_guardian s aA pk ∧
    has_guardians (applyInit s aB gs t) aA = has_guardians s aA ∧
    initOutcome (writeKey s kA v) aB gs t = initOutcome s aB gs t ∧
    get_guardians (writeKey s kA v) aB = get_guardians s aB ∧
    get_threshold (writeKey s kA v) aB = get_threshold s aB ∧
    is_guardian (writeKey s kA v) aB pk = is_guardian s aB pk ∧
    has_guardians (writeKey s kA v) aB = has_guardians s aB := by
  have hAkeys : ∀ k : String,
      k = guardians_key aA ∨ k = threshold_key aA ∨ k = init_key aA →
      lookupKey (applyInit s aB gs t) k = lookupKey s k := by
    intro k hk
    exact lookup_applyInit_ne
      (accountKey_ne wA wB hne hk (Or.inl rfl))
      (accountKey_ne wA wB hne hk (Or.inr (Or.inl rfl)))
      (accountKey_ne wA wB hne hk (Or.inr (Or.inr rfl)))
  have hBwrite : ∀ k : String,
      k = guardians_key aB ∨ k = threshold_key aB ∨ k = init_key aB →
      lookupKey (writeKey s kA v) k = lookupKey s k := by
    intro k hk
    rw [lookup_writeKey,
      if_neg (accountKey_ne wB wA hne.symm hk hkA)]
  have hg := hAkeys _ (Or.inl rfl)
  have ht := hAkeys _ (Or.inr (Or.inl rfl))
  have hi := hAkeys _ (Or.inr (Or.inr rfl))
  refine ⟨hg, ht, hi, get_guardians_congr hg, get_threshold_congr ht,
    is_guardian_congr hg, has_guardians_congr hi,
    initOutcome_congr (has_guardians_congr (hBwrite _ (Or.inr (Or.inr rfl)))),
    get_guardians_congr (hBwrite _ (Or.inl rfl)),
    get_threshold_congr (hBwrite _ (Or.inr (Or.inl rfl))),
    is_guardian_congr (hBwrite _ (Or.inl rfl)),
    has_guardians_congr (hBwrite _ (Or.inr (Or.inr rfl)))⟩

theorem cross_account_isolation_witness :
    lookupKey (applyInit [] ⟨List.replicate 31 0 ++ [1]⟩ [1, 2] 1)
        (guardians_key ⟨List.replicate 32 0⟩)
        = lookupKey [] (guardians_key ⟨List.replicate 32 0⟩) ∧
    lookupKey (applyInit [] ⟨List.replicate 31 0 ++ [1]⟩ [1, 2] 1)
        (threshold_key ⟨List.replicate 32 0⟩)
        = lookupKey [] (threshold_key ⟨List.replicate 32 0⟩) ∧
    lookupKey (applyInit [] ⟨List.replicate 31 0 ++ [1]⟩ [1, 2] 1)
        (init_key ⟨List.replicate 32 0⟩)
        = lookupKey [] (init_key ⟨List.replicate 32 0⟩) ∧
    get_guardians (applyInit [] ⟨List.replicate 31 0 ++ [1]⟩ [1, 2] 1)
        ⟨List.replicate 32 0⟩ = get_guardians [] ⟨List.replicate 32 0⟩ ∧
    get_threshold (applyInit [] ⟨List.replicate 31 0 ++ [1]⟩ [1, 2] 1)
        ⟨List.replicate 32 0⟩ = get_threshold [] ⟨List.replicate 32 0⟩ ∧
    is_guardian (applyInit [] ⟨List.replicate 31 0 ++ [1]⟩ [1, 2] 1)
        ⟨List.replicate 32 0⟩ 1 = is_guardian [] ⟨List.replicate 32 0⟩ 1 ∧
    has_guardians (applyInit [] ⟨List.replicate 31 0 ++ [1]⟩ [1, 2] 1)
        ⟨List.replicate 32 0⟩ = has_guardians [] ⟨List.replicate 32 0⟩ ∧
    initOutcome (writeKey [] (guardians_key ⟨List.replicate 32 0⟩) .unitV)
        ⟨List.replicate 31 0 ++ [1]⟩ [1, 2] 1
        = initOutcome [] ⟨List.replicate 31 0 ++ [1]⟩ [1, 2] 1 ∧
    get_guardians (writeKey [] (guardians_key ⟨List.replicate 32 0⟩) .unitV)
        ⟨List.replicate 31 0 ++ [1]⟩
        = get_guardians [] ⟨List.replicate 31 0 ++ [1]⟩ ∧
    get_threshold (writeKey [] (guardians_key ⟨List.replicate 32 0⟩) .unitV)
        ⟨List.replicate 31 0 ++ [1]⟩
        = get_threshold [] ⟨List.replicate 31 0 ++ [1]⟩ ∧
    is_guardian (writeKey [] (guardians_key ⟨List.replicate 32 0⟩) .unitV)
        ⟨List.replicate 31 0 ++ [1]⟩ 1
        = is_guardian [] ⟨List.replicate 31 0 ++ [1]⟩ 1 ∧
    has_guardians (writeKey [] (guardians_key ⟨List.replicate 32 0⟩) .unitV)
        ⟨List.replicate 31 0 ++ [1]⟩
        = has_guardians [] ⟨List.replicate 31 0 ++ [1]⟩ :=
  cross_account_isolation [] ⟨List.replicate 32 0⟩ ⟨List.replicate 31 0 ++ [1]⟩
    (by decide) (by decide) (by decide) [1, 2] 1 1
    (guardians_key ⟨List.replicate 32 0⟩) .unitV (Or.inl rfl)
